import Mathlib

/-!
Shallow embedding of the `elgato_keylight` control library:
the light-state data model (`src/elgato_keylight/models.py`),
the device client's pure state computations (`src/elgato_keylight/client.py`),
the configuration light filter (`src/elgato_keylight/config.py`),
and the effect sequencer (`src/elgato_keylight/effects.py`)
with its snapshot / drive / restore phases, modelled as an executable
runner instrumented with a per-phase trace of issued network operations
and driven by an oracle that says which operation succeeds.
-/

/-- `LightState` from `models.py`: `on: bool`, `brightness: int`, `temperature: int`,
with the dataclass defaults `on=False`, `brightness=50`, `temperature=200`.
Python ints are unbounded, so both numeric fields are `Int`. -/
structure LightState where
  isOn : Bool := false
  brightness : Int := 50
  temperature : Int := 200
deriving Repr, DecidableEq

/-- The JSON object for one light on the wire. Each field is optional because
`from_api` in the source reads it with `dict.get(key, default)`. -/
structure ApiLight where
  isOn : Option Int
  brightness : Option Int
  temperature : Option Int
deriving Repr, DecidableEq

/-- `LightState.to_api`: the wire encoding, with `on` sent as `1`/`0`. -/
def LightState.to_api (s : LightState) : ApiLight :=
  { isOn := some (if s.isOn then 1 else 0)
    brightness := some s.brightness
    temperature := some s.temperature }

/-- `LightState.from_api`: `on = bool(data.get("on", 0))` (a Python int is truthy
iff nonzero), `brightness = data.get("brightness", 50)`,
`temperature = data.get("temperature", 200)`. -/
def LightState.from_api (d : ApiLight) : LightState :=
  { isOn := d.isOn.getD 0 != 0
    brightness := d.brightness.getD 50
    temperature := d.temperature.getD 200 }

/-- `LightState.temperature_kelvin`: the source computes
`int(1_000_000 / self.temperature)` — truncation toward zero of the quotient.
For the device's temperature range [143,344] the binary64 quotient is more
than 2.9e-3 away from any other integer while its rounding error is below
3e-9, so truncating the float equals truncating the exact quotient, which
`Int.tdiv` is. -/
def LightState.temperature_kelvin (s : LightState) : Int :=
  Int.tdiv 1000000 s.temperature

/-- `PresetValues` from `models.py`: a brightness/temperature pair. -/
structure PresetValues where
  brightness : Int
  temperature : Int
deriving Repr, DecidableEq

/-- `Preset` from `models.py`. The `per_light` dict is modelled as an
association list (Python dict keys are unique; lookup finds the entry). -/
structure Preset where
  brightness : Int
  temperature : Int
  per_light : List (String × PresetValues) := []
deriving Repr, DecidableEq

/-- One iteration of the loop in `Preset.to_state`:
`if key and key in self.per_light` — `key` must be truthy (not `None`,
not the empty string) and present in the dict. -/
def Preset.tryKey (p : Preset) (key : Option String) : Option PresetValues :=
  match key with
  | none => none
  | some k => if k = "" then none else p.per_light.lookup k

/-- `Preset.to_state(light_name, device_id, on)`: check per-light overrides by
device id first, then by name; otherwise fall back to the global pair. -/
def Preset.to_state (p : Preset) (light_name device_id : Option String)
    (pwr : Bool := true) : LightState :=
  match p.tryKey device_id with
  | some vals => { isOn := pwr, brightness := vals.brightness, temperature := vals.temperature }
  | none =>
    match p.tryKey light_name with
    | some vals => { isOn := pwr, brightness := vals.brightness, temperature := vals.temperature }
    | none => { isOn := pwr, brightness := p.brightness, temperature := p.temperature }

/-- `LightConfig` from `models.py` (the `base_url` property is presentation
only and not modelled). -/
structure LightConfig where
  name : String
  host : String
  port : Int := 9123
  id : String := ""
deriving Repr, DecidableEq

/-- `get_lights(names)` from `config.py`, applied to an already-loaded light
list: `if not names: return config.lights` — both `None` and the empty list
are falsy — else keep the lights whose name is in `names`. -/
def get_lights (lights : List LightConfig) (names : Option (List String)) :
    List LightConfig :=
  match names with
  | none => lights
  | some ns =>
    if ns.isEmpty then lights
    else lights.filter (fun l => ns.contains l.name)

/-! ## Device client (`client.py`)

Each convenience mutator is `state = await self.get_state()`, a pure update of
that fetched state, then `set_state`. The functions below are those pure
updates: their argument `s` is the fetched state and their result is exactly
the state handed to `set_state`. -/

/-- `turn_on(brightness, temperature)`: set `on`, overwrite brightness and
temperature only when the caller supplied them. No clamping is performed. -/
def turn_on_state (s : LightState) (brightness temperature : Option Int) :
    LightState :=
  { s with
    isOn := true
    brightness := brightness.getD s.brightness
    temperature := temperature.getD s.temperature }

/-- `turn_off()`: clear `on`. -/
def turn_off_state (s : LightState) : LightState :=
  { s with isOn := false }

/-- `toggle()`: negate `on`. -/
def toggle_state (s : LightState) : LightState :=
  { s with isOn := !s.isOn }

/-- `set_brightness(brightness)`: `brightness = max(0, min(100, brightness))`,
then store it in the fetched state. -/
def set_brightness_state (s : LightState) (brightness : Int) : LightState :=
  { s with brightness := max 0 (min 100 brightness) }

/-- `adjust_brightness(delta)`:
`state.brightness = max(0, min(100, state.brightness + delta))`. -/
def adjust_brightness_state (s : LightState) (delta : Int) : LightState :=
  { s with brightness := max 0 (min 100 (s.brightness + delta)) }

/-- `set_temperature(temperature)`:
`temperature = max(143, min(344, temperature))`, then store it. -/
def set_temperature_state (s : LightState) (temperature : Int) : LightState :=
  { s with temperature := max 143 (min 344 temperature) }

/-! ## Effect sequencer (`effects.py`)

Every restoring effect has the shape

  saved = await _save_states(lights)   -- sequential get_state per light
  try: ... timed _set_all broadcasts ...
  finally: await _restore_states(lights, saved)

`_set_all` issues `set_state` to every light via `asyncio.gather`, so every
write of a step is issued even when one of them raises; `_restore_states`
walks `zip(lights, saved)` sequentially with no error handling, so a failing
restore write stops the loop and propagates. The runner below executes that
control flow over a list of device states, instrumented with the operations
it issues, and driven by an `Oracle` saying which network call succeeds. A
failed `set_state` is modelled as leaving the device state unchanged. -/

/-- Which network calls succeed during one effect run: `getOk i` for the
snapshot read of light `i`, `setOk k i` for the `k`-th broadcast step's write
to light `i`, `restoreOk i` for the restoration write to light `i`. -/
structure Oracle where
  getOk : Nat → Bool
  setOk : Nat → Nat → Bool
  restoreOk : Nat → Bool

/-- Outcome of one effect run: final device states, whether the Python call
raised, and the trace of issued operations per phase. `reads` lists the
lights whose `get_state` was issued during Snapshot; `driveWrites` and
`restoreWrites` list issued `set_state` calls as (light, state); `restored`
lists the lights whose restoration write was issued and succeeded. -/
structure EffectRun where
  final : List LightState
  raised : Bool
  reads : List Nat
  driveWrites : List (Nat × LightState)
  restoreWrites : List (Nat × LightState)
  restored : List Nat
deriving Repr, DecidableEq

/-- Reads issued by `_save_states`' sequential comprehension: every light in
order up to and including the first failing one. -/
def snapshotReadsAux (ok : Nat → Bool) : List Nat → List Nat
  | [] => []
  | i :: rest => if ok i then i :: snapshotReadsAux ok rest else [i]

/-- `_save_states` reads lights `0, 1, ...` in order. -/
def snapshotReads (ok : Nat → Bool) (n : Nat) : List Nat :=
  snapshotReadsAux ok (List.range n)

/-- Device states after one `_set_all(lights, s)` broadcast: every light whose
write succeeds now holds `s`; a light whose write fails keeps its state. -/
def applyBroadcast (ok : Nat → Bool) (s : LightState) (devs : List LightState) :
    List LightState :=
  ((List.range devs.length).zip devs).map (fun p => if ok p.1 then s else p.2)

/-- Whether a `_set_all` step raises: `asyncio.gather` propagates the first
failure among the per-light writes. -/
def stepFails (ok : Nat → Bool) (n : Nat) : Bool :=
  (List.range n).any (fun i => !ok i)

/-- The Drive phase: run the scripted broadcast steps in order starting at
step index `k`; a failing step aborts the remaining steps. Returns the final
device states, whether the drive raised, and the issued writes. -/
def runDrive (setOk : Nat → Nat → Bool) (k : Nat) (script : List LightState)
    (devs : List LightState) :
    List LightState × Bool × List (Nat × LightState) :=
  match script with
  | [] => (devs, false, [])
  | s :: rest =>
    let devs1 := applyBroadcast (setOk k) s devs
    let tr := (List.range devs.length).map (fun i => (i, s))
    if stepFails (setOk k) devs.length then
      (devs1, true, tr)
    else
      let r := runDrive setOk (k + 1) rest devs1
      (r.1, r.2.1, tr ++ r.2.2)

/-- `_restore_states`: `for light, state in zip(lights, states): await
light.set_state(state)` — sequential, no try/except, so the first failing
write stops the loop and the error propagates. `i` is the position of the
head of `saved` in the light list; in every call the light list and `saved`
have the same length (the snapshot yields one state per light). Returns the
final device states, whether restoration raised, the issued writes, and the
lights restored successfully. -/
def runRestore (ok : Nat → Bool) (i : Nat) (saved devs : List LightState) :
    List LightState × Bool × List (Nat × LightState) × List Nat :=
  match saved with
  | [] => (devs, false, [], [])
  | s :: rest =>
    if ok i then
      let r := runRestore ok (i + 1) rest (devs.set i s)
      (r.1, r.2.1, (i, s) :: r.2.2.1, i :: r.2.2.2)
    else
      (devs, true, [(i, s)], [])

/-- The shared skeleton of every restoring effect: Snapshot (sequential
reads; any failure raises before the `try` block, so nothing is written),
then Drive over the script (which may depend on the snapshot, as in
`dim_slowly`), then — in the `finally` clause — Restore. An exception in
Drive or Restore makes the whole call raise. Reads return the current device
state, so the snapshot equals the initial device states. -/
def runRestoringEffect (o : Oracle) (script : List LightState → List LightState)
    (devs : List LightState) : EffectRun :=
  let n := devs.length
  let reads := snapshotReads o.getOk n
  if (List.range n).all o.getOk then
    let d := runDrive o.setOk 0 (script devs) devs
    let r := runRestore o.restoreOk 0 devs d.1
    { final := r.1, raised := d.2.1 || r.2.1, reads := reads,
      driveWrites := d.2.2, restoreWrites := r.2.2.1, restored := r.2.2.2 }
  else
    { final := devs, raised := true, reads := reads,
      driveWrites := [], restoreWrites := [], restored := [] }

/-- The drive script of `flash(times)`: `times` repetitions of
`LightState(on=True, brightness=100, temperature=200)` then
`LightState(on=False)` — the latter carries the dataclass defaults
`brightness=50, temperature=200` since every write sends the full state. -/
def flashScript (times : Nat) : List LightState :=
  (List.replicate times
    [{ isOn := true, brightness := 100, temperature := 200 },
     { isOn := false, brightness := 50, temperature := 200 }]).flatten

/-- `flash(lights, times)` (the sleeps carry no state and are not modelled). -/
def flash (o : Oracle) (devs : List LightState) (times : Nat) : EffectRun :=
  runRestoringEffect o (fun _ => flashScript times) devs

/-- The drive script of `pulse(cycles)`: per cycle, brightness ramps
`range(10, 101, 5)` up then `range(100, 9, -5)` down, always on with
temperature 200. -/
def pulseScript (cycles : Nat) : List LightState :=
  (List.replicate cycles
    (((List.range 19).map (fun i => (10 : Int) + 5 * i)
      ++ (List.range 19).map (fun i => (100 : Int) - 5 * i)).map
      (fun b => { isOn := true, brightness := b, temperature := 200 }))).flatten

/-- `pulse(lights, cycles)`. -/
def pulse (o : Oracle) (devs : List LightState) (cycles : Nat) : EffectRun :=
  runRestoringEffect o (fun _ => pulseScript cycles) devs

/-- The drive script of `celebration()`: 3 repetitions of the temperature
sweep `[143, 200, 250, 300, 344]` forward then reversed, brightness 80. -/
def celebrationScript : List LightState :=
  (List.replicate 3
    ((([143, 200, 250, 300, 344] : List Int)
      ++ ([143, 200, 250, 300, 344] : List Int).reverse).map
      (fun t => { isOn := true, brightness := 80, temperature := t }))).flatten

/-- `celebration(lights)`. -/
def celebration (o : Oracle) (devs : List LightState) : EffectRun :=
  runRestoringEffect o (fun _ => celebrationScript) devs

/-- The drive script of `alert(flashes)`: `flashes` repetitions of
`{on, brightness=100, temperature=143}` then `LightState(on=False)`. -/
def alertScript (flashes : Nat) : List LightState :=
  (List.replicate flashes
    [{ isOn := true, brightness := 100, temperature := 143 },
     { isOn := false, brightness := 50, temperature := 200 }]).flatten

/-- `alert(lights, flashes)`. -/
def alert (o : Oracle) (devs : List LightState) (flashes : Nat) : EffectRun :=
  runRestoringEffect o (fun _ => alertScript flashes) devs

/-- The drive script of `dim_slowly(target, steps)`: `steps + 1` writes, all
on, brightness `max(3, b_i)` at the first light's original temperature. The
step brightness `b_i = int(start_brightness + (target - start_brightness) *
(i / steps))` is computed with binary64 floats in the source; it enters here
as the parameter `bright` because no claim depends on its values, while the
floor clamp at 3 and the fixed temperature are kept from the source. -/
def dimScript (bright : Nat → Int) (temp : Int) (steps : Nat) :
    List LightState :=
  (List.range (steps + 1)).map
    (fun i => { isOn := true, brightness := max 3 (bright i), temperature := temp })

/-- `dim_slowly(lights, target, steps)`: the script reads the first saved
state; with no lights the body returns early inside the `try`, which the
empty script models (the `finally` clause still runs the empty restore). -/
def dim_slowly (o : Oracle) (devs : List LightState) (bright : Nat → Int)
    (steps : Nat) : EffectRun :=
  runRestoringEffect o
    (fun saved =>
      match saved with
      | [] => []
      | s0 :: _ => dimScript bright s0.temperature steps)
    devs

/-- The mood table of `set_mood`. -/
def moods : List (String × LightState) :=
  [("cozy", { isOn := true, brightness := 25, temperature := 320 }),
   ("focus", { isOn := true, brightness := 70, temperature := 200 }),
   ("relax", { isOn := true, brightness := 30, temperature := 280 }),
   ("energize", { isOn := true, brightness := 90, temperature := 160 }),
   ("movie", { isOn := true, brightness := 10, temperature := 300 })]

/-- `set_mood(lights, mood)`: look the name up; raise `ValueError` before any
network call when it is unknown, else one `_set_all` broadcast of the mood
state — no snapshot, no restore. -/
def set_mood (o : Oracle) (devs : List LightState) (mood : String) : EffectRun :=
  match moods.lookup mood with
  | none =>
    { final := devs, raised := true, reads := [],
      driveWrites := [], restoreWrites := [], restored := [] }
  | some s =>
    { final := applyBroadcast (o.setOk 0) s devs
      raised := stepFails (o.setOk 0) devs.length
      reads := []
      driveWrites := (List.range devs.length).map (fun i => (i, s))
      restoreWrites := []
      restored := [] }

/-- The spec's example preset: global (50,200) with an override keyed by the
device id "AA:BB" of (18,181). -/
def examplePresetById : Preset :=
  { brightness := 50, temperature := 200
    per_light := [("AA:BB", { brightness := 18, temperature := 181 })] }

/-- The spec's example preset with the override keyed by a light name. -/
def examplePresetByName : Preset :=
  { brightness := 50, temperature := 200
    per_light := [("right", { brightness := 18, temperature := 181 })] }

/-! ## Claims about the data model and client -/

/-- Claim C10: decoding the wire encoding of a `LightState` yields it back;
in particular `on` survives its 0/1 integer encoding. -/
theorem from_api_to_api_roundtrip (s : LightState) :
    LightState.from_api (LightState.to_api s) = s := by
  cases s with
  | mk o b t => cases o <;> rfl

/-- Claim C7: for every temperature in [143,344], `temperature_kelvin` equals
the floor division `1_000_000 // temperature` (`/` below is `Int.ediv`, which
agrees with floor division on a positive divisor); in particular temperature
200 yields 5000. -/
theorem temperature_kelvin_is_floor_div (s : LightState)
    (h1 : 143 ≤ s.temperature) (h2 : s.temperature ≤ 344) :
    s.temperature_kelvin = 1000000 / s.temperature ∧
    (s.temperature = 200 → s.temperature_kelvin = 5000) := by
  constructor
  · exact Int.tdiv_eq_ediv (by norm_num) (by omega)
  · intro h
    simp only [LightState.temperature_kelvin, h]
    decide

/-- Witness for C7 at temperature 200. -/
theorem temperature_kelvin_is_floor_div_witness :
    ({ isOn := true, brightness := 50, temperature := 200 } : LightState).temperature_kelvin
      = 5000 :=
  (temperature_kelvin_is_floor_div
    { isOn := true, brightness := 50, temperature := 200 }
    (by decide) (by decide)).2 rfl

/-- Claim C3 as stated is false: `turn_on` stores the caller's brightness in
the fetched state without clamping, so from the default state
`turn_on(brightness=150)` passes brightness 150 — outside [0,100] — to
`set_state`. -/
theorem turn_on_does_not_clamp :
    ¬ (0 ≤ (turn_on_state { isOn := false, brightness := 50, temperature := 200 }
              (some 150) none).brightness ∧
       (turn_on_state { isOn := false, brightness := 50, temperature := 200 }
              (some 150) none).brightness ≤ 100) := by
  decide

/-- Claim C3 amended: `set_brightness` and `adjust_brightness` clamp the new
brightness to [0,100] and `set_temperature` clamps the new temperature to
[143,344] before the state is sent; but `turn_on` passes caller-supplied
brightness and temperature through unclamped, and `turn_off`/`toggle` change
only the on flag of the fetched state. -/
theorem mutators_clamp_only_their_own_field (s : LightState) (b d t : Int)
    (ob ot : Option Int) :
    (0 ≤ (set_brightness_state s b).brightness ∧
      (set_brightness_state s b).brightness ≤ 100) ∧
    (0 ≤ (adjust_brightness_state s d).brightness ∧
      (adjust_brightness_state s d).brightness ≤ 100) ∧
    (143 ≤ (set_temperature_state s t).temperature ∧
      (set_temperature_state s t).temperature ≤ 344) ∧
    (turn_on_state s ob ot).brightness = ob.getD s.brightness ∧
    (turn_on_state s ob ot).temperature = ot.getD s.temperature ∧
    turn_off_state s = { s with isOn := false } ∧
    toggle_state s = { s with isOn := !s.isOn } := by
  refine ⟨⟨?_, ?_⟩, ⟨?_, ?_⟩, ⟨?_, ?_⟩, rfl, rfl, rfl, rfl⟩ <;>
    simp only [set_brightness_state, adjust_brightness_state,
      set_temperature_state] <;> omega

/-- Claim C4: preset resolution tries the override keyed by the device id,
then the one keyed by the light name, then falls back to the preset's global
pair, always producing one complete state. -/
theorem preset_resolution_precedence (p : Preset)
    (light_name device_id : Option String) (pwr : Bool) :
    (∀ v, p.tryKey device_id = some v →
      p.to_state light_name device_id pwr =
        { isOn := pwr, brightness := v.brightness, temperature := v.temperature }) ∧
    (p.tryKey device_id = none → ∀ v, p.tryKey light_name = some v →
      p.to_state light_name device_id pwr =
        { isOn := pwr, brightness := v.brightness, temperature := v.temperature }) ∧
    (p.tryKey device_id = none → p.tryKey light_name = none →
      p.to_state light_name device_id pwr =
        { isOn := pwr, brightness := p.brightness, temperature := p.temperature }) := by
  refine ⟨?_, ?_, ?_⟩
  · intro v hv
    simp only [Preset.to_state, hv]
  · intro h v hv
    simp only [Preset.to_state, h, hv]
  · intro h1 h2
    simp only [Preset.to_state, h1, h2]

/-- Witness for C4: the spec's three scenarios — id override wins, name
override applies when the id misses, and the global pair otherwise. -/
theorem preset_resolution_precedence_witness :
    examplePresetById.to_state (some "right") (some "AA:BB") true
      = { isOn := true, brightness := 18, temperature := 181 } ∧
    examplePresetByName.to_state (some "right") none true
      = { isOn := true, brightness := 18, temperature := 181 } ∧
    examplePresetById.to_state (some "left") none true
      = { isOn := true, brightness := 50, temperature := 200 } :=
  ⟨(preset_resolution_precedence examplePresetById (some "right")
      (some "AA:BB") true).1 { brightness := 18, temperature := 181 } (by decide),
   (preset_resolution_precedence examplePresetByName (some "right") none
      true).2.1 (by decide) { brightness := 18, temperature := 181 } (by decide),
   (preset_resolution_precedence examplePresetById (some "left") none
      true).2.2 (by decide) (by decide)⟩

/-- Claim C9 as stated is false: an empty filter list is falsy in Python, so
`get_lights` returns every configured light instead of the empty
selection the claim demands. -/
theorem get_lights_empty_filter_counterexample :
    get_lights [{ name := "left", host := "10.0.0.5", port := 9123, id := "" }]
        (some []) ≠
      ([{ name := "left", host := "10.0.0.5", port := 9123, id := "" }] :
          List LightConfig).filter
        (fun l => ([] : List String).contains l.name) := by
  decide

/-- Claim C9 amended: `get_lights` returns all configured lights when no
filter is given or the filter list is empty; for a non-empty filter it
returns exactly the configured lights whose name is in the filter, in
configuration order. -/
theorem get_lights_filter_semantics (lights : List LightConfig)
    (ns : List String) :
    get_lights lights none = lights ∧
    get_lights lights (some []) = lights ∧
    (ns ≠ [] → get_lights lights (some ns) =
      lights.filter (fun l => ns.contains l.name)) := by
  refine ⟨rfl, rfl, ?_⟩
  intro h
  simp only [get_lights]
  rw [if_neg]
  simpa [List.isEmpty_iff] using h

/-- Witness for the amended C9 on a two-light configuration with a
one-name filter. -/
theorem get_lights_filter_semantics_witness :
    get_lights
        [{ name := "left", host := "a", port := 9123, id := "" },
         { name := "right", host := "b", port := 9123, id := "" }]
        (some ["right"]) =
      ([{ name := "left", host := "a", port := 9123, id := "" },
        { name := "right", host := "b", port := 9123, id := "" }] :
          List LightConfig).filter
        (fun l => (["right"] : List String).contains l.name) :=
  (get_lights_filter_semantics _ ["right"]).2.2 (by decide)

/-! ## Effect sequencer lemmas -/

theorem applyBroadcast_length (ok : Nat → Bool) (s : LightState)
    (devs : List LightState) :
    (applyBroadcast ok s devs).length = devs.length := by
  simp [applyBroadcast]

theorem runDrive_length (setOk : Nat → Nat → Bool) (script : List LightState) :
    ∀ (k : Nat) (devs : List LightState),
      (runDrive setOk k script devs).1.length = devs.length := by
  induction script with
  | nil => intro k devs; rfl
  | cons s rest ih =>
    intro k devs
    simp only [runDrive]
    split
    · exact applyBroadcast_length _ _ _
    · rw [ih (k + 1) (applyBroadcast (setOk k) s devs)]
      exact applyBroadcast_length _ _ _

theorem runRestore_getElem_lt (ok : Nat → Bool) (saved : List LightState) :
    ∀ (i : Nat) (devs : List LightState) (j : Nat), j < i →
      (runRestore ok i saved devs).1[j]? = devs[j]? := by
  induction saved with
  | nil => intro i devs j hj; rfl
  | cons s rest ih =>
    intro i devs j hj
    simp only [runRestore]
    split
    · rw [ih (i + 1) (devs.set i s) j (by omega)]
      exact List.getElem?_set_ne (by omega)
    · rfl

theorem runRestore_restored_ge (ok : Nat → Bool) (saved : List LightState) :
    ∀ (i : Nat) (devs : List LightState) (j : Nat),
      j ∈ (runRestore ok i saved devs).2.2.2 → i ≤ j := by
  induction saved with
  | nil => intro i devs j hj; simp [runRestore] at hj
  | cons s rest ih =>
    intro i devs j hj
    simp only [runRestore] at hj
    by_cases hok : ok i
    · simp only [hok, if_true, List.mem_cons] at hj
      rcases hj with hj | hj
      · omega
      · have := ih (i + 1) (devs.set i s) j hj
        omega
    · simp [hok] at hj

theorem runRestore_restores (ok : Nat → Bool) (saved : List LightState) :
    ∀ (i : Nat) (devs : List LightState), i + saved.length ≤ devs.length →
      ∀ j, j ∈ (runRestore ok i saved devs).2.2.2 →
        (runRestore ok i saved devs).1[j]? = saved[j - i]? := by
  induction saved with
  | nil => intro i devs hlen j hj; simp [runRestore] at hj
  | cons s rest ih =>
    intro i devs hlen j hj
    simp only [List.length_cons] at hlen
    simp only [runRestore] at hj ⊢
    by_cases hok : ok i
    · simp only [hok, if_true, List.mem_cons] at hj ⊢
      rcases hj with rfl | hj
      · rw [runRestore_getElem_lt ok rest (j + 1) (devs.set j s) j (by omega)]
        rw [List.getElem?_set_self (by omega)]
        simp
      · have hge := runRestore_restored_ge ok rest (i + 1) (devs.set i s) j hj
        have := ih (i + 1) (devs.set i s) (by rw [List.length_set]; omega) j hj
        rw [this]
        have harith : j - i = (j - (i + 1)) + 1 := by omega
        rw [harith, List.getElem?_cons_succ]
    · simp [hok] at hj

theorem runRestoringEffect_restores (o : Oracle)
    (script : List LightState → List LightState) (devs : List LightState)
    (i : Nat) (h : i ∈ (runRestoringEffect o script devs).restored) :
    (runRestoringEffect o script devs).final[i]? = devs[i]? := by
  simp only [runRestoringEffect] at h ⊢
  by_cases hall : (List.range devs.length).all o.getOk
  · simp only [hall, if_true] at h ⊢
    have hlen := runDrive_length o.setOk (script devs) 0 devs
    have := runRestore_restores o.restoreOk devs 0
      (runDrive o.setOk 0 (script devs) devs).1 (by omega) i h
    simpa using this
  · simp only [hall, if_false] at h
    simp at h

/-- Claim C1: for every effect other than `set_mood` — flash, pulse,
celebration, alert, dim_slowly — any targeted light whose own restoration
write is issued and succeeds ends the run, whether the drive sequence
completed or a `set_state` step raised partway, in exactly its pre-effect
snapshotted state. -/
theorem restoring_effects_restore_snapshot (o : Oracle)
    (devs : List LightState) (times cycles flashes steps i : Nat)
    (bright : Nat → Int) :
    (i ∈ (flash o devs times).restored →
      (flash o devs times).final[i]? = devs[i]?) ∧
    (i ∈ (pulse o devs cycles).restored →
      (pulse o devs cycles).final[i]? = devs[i]?) ∧
    (i ∈ (celebration o devs).restored →
      (celebration o devs).final[i]? = devs[i]?) ∧
    (i ∈ (alert o devs flashes).restored →
      (alert o devs flashes).final[i]? = devs[i]?) ∧
    (i ∈ (dim_slowly o devs bright steps).restored →
      (dim_slowly o devs bright steps).final[i]? = devs[i]?) :=
  ⟨fun h => runRestoringEffect_restores o _ devs i h,
   fun h => runRestoringEffect_restores o _ devs i h,
   fun h => runRestoringEffect_restores o _ devs i h,
   fun h => runRestoringEffect_restores o _ devs i h,
   fun h => runRestoringEffect_restores o _ devs i h⟩

/-- Witness for C1: a fault-free `flash` on one light puts the light back in
its snapshotted state. -/
theorem restoring_effects_restore_snapshot_witness :
    0 ∈ (flash ⟨fun _ => true, fun _ _ => true, fun _ => true⟩
          [{ isOn := true, brightness := 40, temperature := 250 }] 1).restored ∧
    (flash ⟨fun _ => true, fun _ _ => true, fun _ => true⟩
          [{ isOn := true, brightness := 40, temperature := 250 }] 1).final[0]?
      = ([{ isOn := true, brightness := 40, temperature := 250 }] :
          List LightState)[0]? :=
  ⟨by decide,
   (restoring_effects_restore_snapshot
      ⟨fun _ => true, fun _ _ => true, fun _ => true⟩
      [{ isOn := true, brightness := 40, temperature := 250 }]
      1 0 0 0 0 (fun _ => 0)).1 (by decide)⟩

theorem runRestore_first_failure (ok : Nat → Bool) (saved : List LightState) :
    ∀ (i : Nat) (devs : List LightState) (j : Nat), j < saved.length →
      (∀ k, k < j → ok (i + k) = true) → ok (i + j) = false →
      (runRestore ok i saved devs).2.1 = true ∧
      (runRestore ok i saved devs).2.2.2
        = (List.range j).map (fun k => i + k) ∧
      (runRestore ok i saved devs).2.2.1.map Prod.fst
        = (List.range (j + 1)).map (fun k => i + k) := by
  induction saved with
  | nil =>
    intro i devs j hj
    simp at hj
  | cons s rest ih =>
    intro i devs j hj hok hbad
    match j with
    | 0 =>
      have h0 : ok i = false := by simpa using hbad
      simp [runRestore, h0, List.range_succ]
    | m + 1 =>
      have h0 : ok i = true := by simpa using hok 0 (by omega)
      have hrec := ih (i + 1) (devs.set i s) m
        (by simp only [List.length_cons] at hj; omega)
        (fun k hk => by
          have harith : i + 1 + k = i + (k + 1) := by omega
          rw [harith]
          exact hok (k + 1) (by omega))
        (by
          have harith : i + 1 + m = i + (m + 1) := by omega
          rw [harith]
          exact hbad)
      obtain ⟨e2, r2, w2⟩ := hrec
      simp only [runRestore, h0, if_true]
      refine ⟨e2, ?_, ?_⟩
      · rw [r2, List.range_succ_eq_map m, List.map_cons, List.map_map]
        refine congrArg₂ List.cons (by omega) ?_
        exact List.map_congr_left (fun a _ => by simp [Function.comp]; omega)
      · rw [List.map_cons, w2]
        rw [List.range_succ_eq_map (m + 1), List.map_cons, List.map_map]
        refine congrArg₂ List.cons (by omega) ?_
        exact List.map_congr_left (fun a _ => by simp [Function.comp]; omega)

/-- Claim C2 as stated is false: two lights, drive fault-free, but the first
light's restoration write fails — `_restore_states` has no per-light error
handling, so the effect raises and the second light's restoration write is
never issued, leaving it in the last drive state instead of its snapshot. -/
theorem restore_not_best_effort_counterexample :
    (flash ⟨fun _ => true, fun _ _ => true, fun i => decide (0 < i)⟩
        [{ isOn := true, brightness := 40, temperature := 250 },
         { isOn := false, brightness := 60, temperature := 300 }] 1).raised
      = true ∧
    (flash ⟨fun _ => true, fun _ _ => true, fun i => decide (0 < i)⟩
        [{ isOn := true, brightness := 40, temperature := 250 },
         { isOn := false, brightness := 60, temperature := 300 }] 1).restoreWrites.map
        Prod.fst = [0] ∧
    (flash ⟨fun _ => true, fun _ _ => true, fun i => decide (0 < i)⟩
        [{ isOn := true, brightness := 40, temperature := 250 },
         { isOn := false, brightness := 60, temperature := 300 }] 1).final[1]?
      ≠ some { isOn := false, brightness := 60, temperature := 300 } := by
  refine ⟨by decide, by decide, by decide⟩

/-- Claim C2 amended: restoration is attempted sequentially in snapshot
order with no per-light error handling — after the snapshot succeeded, if
the restoration writes for the lights before `j` succeed and light `j`'s
restoration write fails, the effect raises, exactly the lights before `j`
are restored, and only lights `0..j` ever receive a restoration write (the
remaining lights' restorations are not attempted). -/
theorem restore_stops_at_first_failure (o : Oracle)
    (script : List LightState → List LightState) (devs : List LightState)
    (j : Nat) (hall : (List.range devs.length).all o.getOk = true)
    (hok : ∀ k, k < j → o.restoreOk k = true)
    (hbad : o.restoreOk j = false) (hj : j < devs.length) :
    (runRestoringEffect o script devs).raised = true ∧
    (runRestoringEffect o script devs).restored = List.range j ∧
    (runRestoringEffect o script devs).restoreWrites.map Prod.fst
      = List.range (j + 1) := by
  have hfail := runRestore_first_failure o.restoreOk devs 0
    (runDrive o.setOk 0 (script devs) devs).1 j hj
    (fun k hk => by simpa using hok k hk) (by simpa using hbad)
  obtain ⟨e, r, w⟩ := hfail
  simp only [runRestoringEffect, hall, if_true]
  refine ⟨by rw [e, Bool.or_true], ?_, ?_⟩
  · rw [r]
    simp
  · rw [w]
    simp

/-- Witness for the amended C2: two lights, the restoration write of light 0
succeeds and that of light 1 fails — the effect raises, only light 0 ends
restored, and only lights 0 and 1 received a restoration write. -/
theorem restore_stops_at_first_failure_witness :
    (runRestoringEffect ⟨fun _ => true, fun _ _ => true, fun i => decide (i = 0)⟩
        (fun _ => flashScript 1)
        [{ isOn := true, brightness := 40, temperature := 250 },
         { isOn := false, brightness := 60, temperature := 300 }]).raised = true ∧
    (runRestoringEffect ⟨fun _ => true, fun _ _ => true, fun i => decide (i = 0)⟩
        (fun _ => flashScript 1)
        [{ isOn := true, brightness := 40, temperature := 250 },
         { isOn := false, brightness := 60, temperature := 300 }]).restored
      = List.range 1 ∧
    (runRestoringEffect ⟨fun _ => true, fun _ _ => true, fun i => decide (i = 0)⟩
        (fun _ => flashScript 1)
        [{ isOn := true, brightness := 40, temperature := 250 },
         { isOn := false, brightness := 60, temperature := 300 }]).restoreWrites.map
        Prod.fst = List.range 2 :=
  restore_stops_at_first_failure
    ⟨fun _ => true, fun _ _ => true, fun i => decide (i = 0)⟩
    (fun _ => flashScript 1)
    [{ isOn := true, brightness := 40, temperature := 250 },
     { isOn := false, brightness := 60, temperature := 300 }]
    1 (by decide)
    (fun k hk => by
      have hk0 : k = 0 := by omega
      subst hk0
      rfl)
    (by decide) (by decide)

theorem runRestoringEffect_snapshot_failure (o : Oracle)
    (script : List LightState → List LightState) (devs : List LightState)
    (j : Nat) (hbad : o.getOk j = false) (hj : j < devs.length) :
    runRestoringEffect o script devs =
      { final := devs, raised := true,
        reads := snapshotReads o.getOk devs.length,
        driveWrites := [], restoreWrites := [], restored := [] } := by
  have hall : ((List.range devs.length).all o.getOk) = false := by
    rcases h : (List.range devs.length).all o.getOk with _ | _
    · rfl
    · exfalso
      rw [List.all_eq_true] at h
      have := h j (List.mem_range.2 hj)
      rw [hbad] at this
      exact Bool.false_ne_true this
  simp [runRestoringEffect, hall]

/-- Claim C5: for each restoring effect, a failing `get_state` during the
Snapshot phase makes the whole effect raise with no `set_state` issued to
any light — drive and restore write traces are empty and every device state
is unchanged. -/
theorem snapshot_failure_aborts_before_any_write (o : Oracle)
    (devs : List LightState) (times cycles flashes steps j : Nat)
    (bright : Nat → Int) (hbad : o.getOk j = false) (hj : j < devs.length) :
    flash o devs times =
      { final := devs, raised := true,
        reads := snapshotReads o.getOk devs.length,
        driveWrites := [], restoreWrites := [], restored := [] } ∧
    pulse o devs cycles =
      { final := devs, raised := true,
        reads := snapshotReads o.getOk devs.length,
        driveWrites := [], restoreWrites := [], restored := [] } ∧
    celebration o devs =
      { final := devs, raised := true,
        reads := snapshotReads o.getOk devs.length,
        driveWrites := [], restoreWrites := [], restored := [] } ∧
    alert o devs flashes =
      { final := devs, raised := true,
        reads := snapshotReads o.getOk devs.length,
        driveWrites := [], restoreWrites := [], restored := [] } ∧
    dim_slowly o devs bright steps =
      { final := devs, raised := true,
        reads := snapshotReads o.getOk devs.length,
        driveWrites := [], restoreWrites := [], restored := [] } :=
  ⟨runRestoringEffect_snapshot_failure o _ devs j hbad hj,
   runRestoringEffect_snapshot_failure o _ devs j hbad hj,
   runRestoringEffect_snapshot_failure o _ devs j hbad hj,
   runRestoringEffect_snapshot_failure o _ devs j hbad hj,
   runRestoringEffect_snapshot_failure o _ devs j hbad hj⟩

/-- Witness for C5: a `flash` whose first snapshot read fails raises without
issuing any write and leaves both lights unchanged. -/
theorem snapshot_failure_aborts_before_any_write_witness :
    flash ⟨fun i => decide (0 < i), fun _ _ => true, fun _ => true⟩
        [{ isOn := true, brightness := 40, temperature := 250 },
         { isOn := false, brightness := 60, temperature := 300 }] 2 =
      { final := [{ isOn := true, brightness := 40, temperature := 250 },
                  { isOn := false, brightness := 60, temperature := 300 }],
        raised := true,
        reads := snapshotReads (fun i => decide (0 < i)) 2,
        driveWrites := [], restoreWrites := [], restored := [] } :=
  (snapshot_failure_aborts_before_any_write
    ⟨fun i => decide (0 < i), fun _ _ => true, fun _ => true⟩
    [{ isOn := true, brightness := 40, temperature := 250 },
     { isOn := false, brightness := 60, temperature := 300 }]
    2 0 0 0 0 (fun _ => 0) (by decide) (by decide)).1

/-- Claim C6: `set_mood` raises the unknown-mood error exactly when the name
is outside {cozy, focus, relax, energize, movie}, and then issues no write
and changes no light; for a known name it issues one write of the mood
table's state to every targeted light, with no snapshot read beforehand and
no restoration write afterwards. -/
theorem set_mood_semantics (o : Oracle) (devs : List LightState) (m : String) :
    (moods.lookup m = none ↔
      ¬ (m = "cozy" ∨ m = "focus" ∨ m = "relax" ∨ m = "energize" ∨
         m = "movie")) ∧
    (moods.lookup m = none →
      set_mood o devs m =
        { final := devs, raised := true, reads := [], driveWrites := [],
          restoreWrites := [], restored := [] }) ∧
    (∀ s, moods.lookup m = some s →
      (set_mood o devs m).reads = [] ∧
      (set_mood o devs m).restoreWrites = [] ∧
      (set_mood o devs m).restored = [] ∧
      (set_mood o devs m).driveWrites
        = (List.range devs.length).map (fun i => (i, s))) := by
  refine ⟨?_, ?_, ?_⟩
  · constructor
    · intro h hor
      rcases hor with rfl | rfl | rfl | rfl | rfl <;>
        simp [moods, List.lookup] at h
    · intro h
      have e1 : (m == "cozy") = false :=
        beq_eq_false_iff_ne.2 (fun hh => h (Or.inl hh))
      have e2 : (m == "focus") = false :=
        beq_eq_false_iff_ne.2 (fun hh => h (Or.inr (Or.inl hh)))
      have e3 : (m == "relax") = false :=
        beq_eq_false_iff_ne.2 (fun hh => h (Or.inr (Or.inr (Or.inl hh))))
      have e4 : (m == "energize") = false :=
        beq_eq_false_iff_ne.2 (fun hh => h (Or.inr (Or.inr (Or.inr (Or.inl hh)))))
      have e5 : (m == "movie") = false :=
        beq_eq_false_iff_ne.2 (fun hh => h (Or.inr (Or.inr (Or.inr (Or.inr hh)))))
      simp [moods, List.lookup, e1, e2, e3, e4, e5]
  · intro h
    simp only [set_mood, h]
  · intro s hs
    simp [set_mood, hs]

/-- Witness for C6: "jazz" is rejected with no write issued; "cozy" writes
the cozy state to each of the two lights with no snapshot and no restore. -/
theorem set_mood_semantics_witness :
    set_mood ⟨fun _ => true, fun _ _ => true, fun _ => true⟩
        [{ isOn := true, brightness := 40, temperature := 250 }] "jazz" =
      { final := [{ isOn := true, brightness := 40, temperature := 250 }],
        raised := true, reads := [], driveWrites := [],
        restoreWrites := [], restored := [] } ∧
    (set_mood ⟨fun _ => true, fun _ _ => true, fun _ => true⟩
        [{ isOn := true, brightness := 40, temperature := 250 },
         { isOn := false, brightness := 60, temperature := 300 }] "cozy").driveWrites
      = (List.range 2).map
          (fun i => (i, { isOn := true, brightness := 25, temperature := 320 })) :=
  ⟨(set_mood_semantics ⟨fun _ => true, fun _ _ => true, fun _ => true⟩
      [{ isOn := true, brightness := 40, temperature := 250 }] "jazz").2.1
      (by decide),
   ((set_mood_semantics ⟨fun _ => true, fun _ _ => true, fun _ => true⟩
      [{ isOn := true, brightness := 40, temperature := 250 },
       { isOn := false, brightness := 60, temperature := 300 }] "cozy").2.2
      { isOn := true, brightness := 25, temperature := 320 } (by decide)).2.2.2⟩

theorem snapshotReadsAux_all_ok (ok : Nat → Bool) (h : ∀ x, ok x = true) :
    ∀ l : List Nat, snapshotReadsAux ok l = l := by
  intro l
  induction l with
  | nil => rfl
  | cons a t ih => simp [snapshotReadsAux, h, ih]

theorem filter_flatMap_eq {α β : Type} (l : List α) (f : α → List β)
    (p : β → Bool) :
    (l.flatMap f).filter p = l.flatMap (fun a => (f a).filter p) := by
  induction l with
  | nil => rfl
  | cons a t ih => simp [List.flatMap_cons, List.filter_append, ih]

theorem filter_broadcast (s : LightState) (i : Nat) :
    ∀ n : Nat, i < n →
      ((List.range n).map (fun j => (j, s))).filter (fun p => p.1 == i)
        = [(i, s)] := by
  intro n
  induction n with
  | zero => intro h; omega
  | succ m ih =>
    intro h
    rw [List.range_succ, List.map_append, List.filter_append]
    by_cases hi : i < m
    · rw [ih hi]
      have hne : (m == i) = false := beq_eq_false_iff_ne.2 (by omega)
      simp [List.filter_cons, hne]
    · have him : i = m := by omega
      subst him
      have h1 : ((List.range i).map (fun j => (j, s))).filter
          (fun p => p.1 == i) = [] := by
        rw [List.filter_eq_nil_iff]
        intro a ha
        obtain ⟨j, hj, rfl⟩ := List.mem_map.1 ha
        rw [List.mem_range] at hj
        simp [beq_eq_false_iff_ne.2 (by omega : j ≠ i)]
      rw [h1]
      simp [List.filter_cons]

theorem drive_writes_per_light (script : List LightState) (n i : Nat)
    (hi : i < n) :
    ((script.flatMap (fun s => (List.range n).map (fun j => (j, s)))).filter
        (fun p => p.1 == i)).map Prod.snd = script := by
  rw [filter_flatMap_eq]
  induction script with
  | nil => rfl
  | cons s rest ih =>
    rw [List.flatMap_cons, List.map_append, filter_broadcast s i n hi, ih]
    rfl

theorem runDrive_allOk (setOk : Nat → Nat → Bool)
    (h : ∀ k x, setOk k x = true) (script : List LightState) :
    ∀ (k : Nat) (devs : List LightState),
      (runDrive setOk k script devs).2.1 = false ∧
      (runDrive setOk k script devs).2.2
        = script.flatMap
            (fun s => (List.range devs.length).map (fun i => (i, s))) := by
  induction script with
  | nil => intro k devs; exact ⟨rfl, rfl⟩
  | cons s rest ih =>
    intro k devs
    have hsf : stepFails (setOk k) devs.length = false := by
      simp [stepFails, h]
    obtain ⟨e, t⟩ := ih (k + 1) (applyBroadcast (setOk k) s devs)
    rw [applyBroadcast_length] at t
    simp [runDrive, hsf, e, t, List.flatMap_cons]

theorem runRestore_allOk (ok : Nat → Bool) (h : ∀ x, ok x = true)
    (saved : List LightState) :
    ∀ (i : Nat) (devs : List LightState),
      (runRestore ok i saved devs).2.1 = false ∧
      (runRestore ok i saved devs).2.2.1 = List.enumFrom i saved := by
  induction saved with
  | nil => intro i devs; exact ⟨rfl, rfl⟩
  | cons s rest ih =>
    intro i devs
    obtain ⟨e, w⟩ := ih (i + 1) (devs.set i s)
    simp only [runRestore, h i, if_true]
    exact ⟨e, by rw [w, List.enumFrom_cons]⟩

theorem flashScript_length (times : Nat) :
    (flashScript times).length = 2 * times := by
  induction times with
  | zero => rfl
  | succ m ih =>
    simp only [flashScript, List.replicate_succ, List.flatten_cons,
      List.length_append, List.length_cons, List.length_nil] at ih ⊢
    omega

/-- Claim C8: a fault-free `flash(times)` issues, per targeted light `i`,
exactly one snapshot read, exactly `2 * times` state-setting writes — the
alternating on/off script — and exactly one final restore write of the
light's snapshotted state; nothing raises. -/
theorem flash_per_light_operations (o : Oracle) (devs : List LightState)
    (times i : Nat) (hg : ∀ x, o.getOk x = true)
    (hs : ∀ k x, o.setOk k x = true) (hr : ∀ x, o.restoreOk x = true)
    (hi : i < devs.length) :
    (flash o devs times).reads = List.range devs.length ∧
    (flash o devs times).reads.count i = 1 ∧
    ((flash o devs times).driveWrites.filter (fun p => p.1 == i)).map Prod.snd
      = flashScript times ∧
    (flashScript times).length = 2 * times ∧
    (flash o devs times).restoreWrites = List.enumFrom 0 devs ∧
    ((flash o devs times).restoreWrites.map Prod.fst).count i = 1 ∧
    (flash o devs times).raised = false := by
  have hall : ((List.range devs.length).all o.getOk) = true := by
    rw [List.all_eq_true]
    intro x _
    exact hg x
  have hreads : snapshotReads o.getOk devs.length = List.range devs.length :=
    snapshotReadsAux_all_ok o.getOk hg _
  obtain ⟨hde, hdt⟩ := runDrive_allOk o.setOk hs (flashScript times) 0 devs
  obtain ⟨hre, hrw⟩ := runRestore_allOk o.restoreOk hr devs 0
    (runDrive o.setOk 0 (flashScript times) devs).1
  have hrun : flash o devs times =
      { final := (runRestore o.restoreOk 0 devs
          (runDrive o.setOk 0 (flashScript times) devs).1).1,
        raised := (runDrive o.setOk 0 (flashScript times) devs).2.1 ||
          (runRestore o.restoreOk 0 devs
            (runDrive o.setOk 0 (flashScript times) devs).1).2.1,
        reads := snapshotReads o.getOk devs.length,
        driveWrites := (runDrive o.setOk 0 (flashScript times) devs).2.2,
        restoreWrites := (runRestore o.restoreOk 0 devs
          (runDrive o.setOk 0 (flashScript times) devs).1).2.2.1,
        restored := (runRestore o.restoreOk 0 devs
          (runDrive o.setOk 0 (flashScript times) devs).1).2.2.2 } := by
    simp only [flash, runRestoringEffect, hall, if_true]
  rw [hrun]
  refine ⟨hreads, ?_, ?_, flashScript_length times, hrw, ?_, ?_⟩
  · rw [hreads]
    exact List.count_eq_one_of_mem (List.nodup_range _) (List.mem_range.2 hi)
  · rw [hdt]
    exact drive_writes_per_light (flashScript times) devs.length i hi
  · rw [hrw, List.enumFrom_map_fst, ← List.range_eq_range']
    exact List.count_eq_one_of_mem (List.nodup_range _) (List.mem_range.2 hi)
  · rw [hde, hre]
    rfl

/-- Witness for C8: a fault-free `flash(times=3)` on one light issues one
read, the six alternating drive writes, and one restore write. -/
theorem flash_per_light_operations_witness :
    (flash ⟨fun _ => true, fun _ _ => true, fun _ => true⟩
        [{ isOn := true, brightness := 40, temperature := 250 }] 3).reads.count 0
      = 1 ∧
    ((flash ⟨fun _ => true, fun _ _ => true, fun _ => true⟩
        [{ isOn := true, brightness := 40, temperature := 250 }] 3).driveWrites.filter
        (fun p => p.1 == 0)).map Prod.snd = flashScript 3 ∧
    (flashScript 3).length = 2 * 3 ∧
    ((flash ⟨fun _ => true, fun _ _ => true, fun _ => true⟩
        [{ isOn := true, brightness := 40, temperature := 250 }] 3).restoreWrites.map
        Prod.fst).count 0 = 1 :=
  ⟨((flash_per_light_operations ⟨fun _ => true, fun _ _ => true, fun _ => true⟩
      [{ isOn := true, brightness := 40, temperature := 250 }] 3 0
      (fun _ => rfl) (fun _ _ => rfl) (fun _ => rfl) (by decide))).2.1,
   ((flash_per_light_operations ⟨fun _ => true, fun _ _ => true, fun _ => true⟩
      [{ isOn := true, brightness := 40, temperature := 250 }] 3 0
      (fun _ => rfl) (fun _ _ => rfl) (fun _ => rfl) (by decide))).2.2.1,
   ((flash_per_light_operations ⟨fun _ => true, fun _ _ => true, fun _ => true⟩
      [{ isOn := true, brightness := 40, temperature := 250 }] 3 0
      (fun _ => rfl) (fun _ _ => rfl) (fun _ => rfl) (by decide))).2.2.2.1,
   ((flash_per_light_operations ⟨fun _ => true, fun _ _ => true, fun _ => true⟩
      [{ isOn := true, brightness := 40, temperature := 250 }] 3 0
      (fun _ => rfl) (fun _ _ => rfl) (fun _ => rfl) (by decide))).2.2.2.2.2.1⟩
